import Mathlib

set_option maxRecDepth 16384

/-!
Verification of the schema-to-Java-model generator in
`src/java_model_generator.py` (and, where a claim cites it, the older
variant `src/java_model_generatory.py`).

Shallow embedding conventions: Python strings are `String`, pyodbc rows
`(COLUMN_NAME, DATA_TYPE)` are `Column` records, the catalog is a list of
`Table` records, a raised exception is an explicit `GenError` value, the
file produced by one `write_class_to_file` call is a `FileResult`
(distinguishing "crashed before `open`", "crashed mid-write leaving a
partial file" and "fully written"), and the iteration order of the Python
`set` of value-type imports — which CPython does not fix across processes —
is an explicit `setOrder` parameter.  Character-level behaviour of
`str.title` / `str.upper` / `str.lower` is modelled at ASCII fidelity,
which covers the identifiers the source deals with.
-/

namespace JavaModelGen

/-- Exceptions the Python source can raise, as explicit values. -/
inductive GenError where
  | attributeError
  | indexError
  | fileWriteError
  | configurationError
  deriving DecidableEq, Repr

/-- One row of the `INFORMATION_SCHEMA.COLUMNS` result set: `(COLUMN_NAME, DATA_TYPE)`. -/
structure Column where
  name : String
  dataType : String
  deriving DecidableEq, Repr

/-- One catalog table together with its ordered column rows. -/
structure Table where
  name : String
  columns : List Column
  deriving DecidableEq, Repr

/-- One file written to the output directory. -/
structure FileWrite where
  name : String
  content : String
  deriving DecidableEq, Repr

/-- Outcome of one `write_class_to_file` call. -/
inductive FileResult where
  | noFile (e : GenError)
  | partialFile (f : FileWrite) (e : GenError)
  | written (f : FileWrite)
  deriving DecidableEq, Repr

/-- Entry of the `JAVA_TYPES` dictionary: the `type` and `class` values
(`clazz` stands for the `class` key, which is a Lean keyword). -/
structure JavaTypeEntry where
  type : String
  clazz : Option String
  deriving DecidableEq, Repr

/-- The `JAVA_TYPES` dictionary of `java_model_generator.py`, lines 12-33. -/
def JAVA_TYPES : List (String × JavaTypeEntry) := [
  ("INT", ⟨"Integer", none⟩),
  ("INTEGER", ⟨"Integer", none⟩),
  ("BIGINT", ⟨"Long", none⟩),
  ("SMALLINT", ⟨"Short", none⟩),
  ("REAL", ⟨"Float", none⟩),
  ("FLOAT", ⟨"Float", none⟩),
  ("DOUBLE", ⟨"Double", none⟩),
  ("DECIMAL", ⟨"BigDecimal", some "java.math.BigDecimal;"⟩),
  ("NUMERIC", ⟨"BigDecimal", some "java.math.BigDecimal;"⟩),
  ("NCHAR", ⟨"String", none⟩),
  ("CHAR", ⟨"String", none⟩),
  ("VARCHAR", ⟨"String", none⟩),
  ("NVARCHAR", ⟨"String", none⟩),
  ("TINYINT", ⟨"Byte", none⟩),
  ("BIT", ⟨"Boolean", none⟩),
  ("DATE", ⟨"Date", some "java.util.Date;"⟩),
  ("DATETIME", ⟨"Date", some "java.util.Date;"⟩),
  ("BINARY", ⟨"Byte[]", none⟩),
  ("VARBINARY", ⟨"Byte[]", none⟩),
  ("IMAGE", ⟨"Byte[]", none⟩)]

/-- ASCII uppercase letter test (`A`-`Z`), stated on code points. -/
def isAsciiUpper (c : Char) : Bool := 65 ≤ c.toNat && c.toNat ≤ 90

/-- ASCII lowercase letter test (`a`-`z`), stated on code points. -/
def isAsciiLower (c : Char) : Bool := 97 ≤ c.toNat && c.toNat ≤ 122

/-- ASCII letter test; models the "cased character" notion Python's
`str.title` uses, at ASCII fidelity. -/
def isAsciiAlpha (c : Char) : Bool := isAsciiUpper c || isAsciiLower c

/-- Python `str.upper` on one character (ASCII). -/
def pyCharUpper (c : Char) : Char :=
  if isAsciiLower c then Char.ofNat (c.toNat - 32) else c

/-- Python `str.lower` on one character (ASCII). -/
def pyCharLower (c : Char) : Char :=
  if isAsciiUpper c then Char.ofNat (c.toNat + 32) else c

/-- Python `str.upper` (ASCII scope), as used by `sql_data_type.upper()`. -/
def py_upper (s : String) : String := ⟨s.data.map pyCharUpper⟩

/-- Source `get_java_type_for_sql_type` (line 146):
`JAVA_TYPES.get(sql_data_type.upper()).get('type')`.  `none` models the
`AttributeError` raised when the outer `.get` returns `None`. -/
def get_java_type_for_sql_type (sql_data_type : String) : Option String :=
  (JAVA_TYPES.lookup (py_upper sql_data_type)).map (fun e => e.type)

/-- Source `get_java_class_for_sql_type` (line 150): the outer `none`
models the `AttributeError` on an unmapped type; the inner value is the
(possibly `None`) `class` entry. -/
def get_java_class_for_sql_type (sql_data_type : String) : Option (Option String) :=
  (JAVA_TYPES.lookup (py_upper sql_data_type)).map (fun e => e.clazz)

/-- Separator characters collapsed by the regex `(_|-)+` in `camel_case`. -/
def isSep (c : Char) : Bool := c = '_' || c = '-'

/-- The regex substitution `sub(r"(_|-)+", " ", string)`: each maximal run
of `_`/`-` becomes a single space.  The flag records whether the previous
character belonged to a separator run. -/
def collapseSeps : List Char → Bool → List Char
  | [], _ => []
  | c :: rest, inSep =>
    if isSep c then
      (if inSep then collapseSeps rest true else ' ' :: collapseSeps rest true)
    else c :: collapseSeps rest false

/-- Python `str.title` (ASCII scope): a letter is uppercased when the
previous character is not a letter, lowercased otherwise; non-letters pass
through and reset the word state. -/
def pythonTitle : List Char → Bool → List Char
  | [], _ => []
  | c :: rest, prevCased =>
    if isAsciiAlpha c then
      (if prevCased then pyCharLower c :: pythonTitle rest true
       else pyCharUpper c :: pythonTitle rest true)
    else c :: pythonTitle rest false

/-- First line of the source `camel_case` (line 175):
`sub(r"(_|-)+", " ", string).title().replace(" ", "")`. -/
def camel_case_base (s : String) : String :=
  ⟨(pythonTitle (collapseSeps s.data false) false).filter (fun c => c ≠ ' ')⟩

/-- The expression `''.join([string[0].lower(), string[1:]])` of
`camel_case`; `none` models the `IndexError` raised by `string[0]` when
the string is empty. -/
def lowerFirstPy (s : String) : Option String :=
  match s.data with
  | [] => none
  | c :: cs => some ⟨pyCharLower c :: cs⟩

/-- Source `camel_case` (lines 174-176).  The source gives `lower` the
default `False`; call sites that omit the argument pass `false` here. -/
def camel_case (s : String) (lower : Bool) : Option String :=
  let string := camel_case_base s
  if lower then lowerFirstPy string else some string

/-- A single-quote character, kept out of string literals. -/
def sqlQuote : String := String.singleton (Char.ofNat 39)

/-- Python truthiness of an optional string argument (`None` and `''` are
falsy). -/
def pyTruthyOpt : Option String → Bool
  | none => false
  | some s => s ≠ ""

/-- Value of an optional string argument, `""` for `None`. -/
def pyStrOrEmpty : Option String → String
  | none => ""
  | some s => s

/-- Source `get_tables_query` (lines 36-39): the filtered query when the
`table` argument is truthy, the list-all query otherwise. -/
def get_tables_query (table : Option String) : String :=
  if pyTruthyOpt table then
    "SELECT t.TABLE_NAME FROM INFORMATION_SCHEMA.TABLES AS t WHERE t.TABLE_NAME = "
      ++ sqlQuote ++ pyStrOrEmpty table ++ sqlQuote
  else
    "SELECT t.TABLE_NAME FROM INFORMATION_SCHEMA.TABLES AS t"

/-- Source `get_columns_query` (lines 42-43). -/
def get_columns_query (table : String) : String :=
  "SELECT c.COLUMN_NAME, c.DATA_TYPE FROM INFORMATION_SCHEMA.COLUMNS AS c WHERE c.TABLE_NAME = "
    ++ sqlQuote ++ table ++ sqlQuote

/-- Source `get_column_name` (line 46): `column[0]`. -/
def get_column_name (column : Column) : String := column.name

/-- Source `get_column_type` (line 50): `column[1]`. -/
def get_column_type (column : Column) : String := column.dataType

/-- Source `get_imports_string` (lines 54-69), exactly the literal. -/
def get_imports_string : String :=
  "\nimport jakarta.persistence.Entity;\nimport java.io.Serial;\nimport java.io.Serializable;\nimport jakarta.persistence.Column;\nimport jakarta.persistence.Id;\nimport jakarta.persistence.GeneratedValue;\nimport jakarta.persistence.GenerationType;\nimport jakarta.persistence.Table;\nimport lombok.AllArgsConstructor;\nimport lombok.Data;\nimport lombok.NoArgsConstructor;\n\n"

/-- Source `get_class_annotations` (lines 72-78). -/
def get_class_annotations : String :=
  "@Data\n@NoArgsConstructor\n@AllArgsConstructor\n@Entity\n"

/-- Python `'\n'.join(...)`. -/
def joinSep (sep : String) : List String → String
  | [] => ""
  | [x] => x
  | x :: y :: ys => x ++ sep ++ joinSep sep (y :: ys)

/-- Concatenation of the chunks passed to successive `file.write` calls. -/
def strJoin : List String → String
  | [] => ""
  | s :: rest => s ++ strJoin rest

/-- Source `get_type_imports` (lines 184-186): joins the non-`None`
members of the import set, in the iteration order handed to it. -/
def get_type_imports (type_classes : List (Option String)) : String :=
  let imports := joinSep "\n" ((type_classes.filterMap id).map (fun i => "import " ++ i))
  if imports ≠ "" then imports ++ "\n" else ""

/-- The `class` entries of the columns, in column order (line 196 inside
`write_class_to_file`); the first unmapped type raises `AttributeError`
before the output file is opened. -/
def classesOf : List Column → Except GenError (List (Option String))
  | [] => .ok []
  | c :: rest =>
    match get_java_class_for_sql_type (get_column_type c) with
    | none => .error .attributeError
    | some cls =>
      match classesOf rest with
      | .error e => .error e
      | .ok l => .ok (cls :: l)

/-- Contents of a Python set built by inserting the list elements in
order: duplicates collapse to the first occurrence. -/
def dedupFirst : List (Option String) → List (Option String)
  | [] => []
  | x :: xs => x :: (dedupFirst xs).filter (fun y => y ≠ x)

/-- Output file name used by `write_class_to_file` (line 198):
`f-string {camel_case(table)}.java`. -/
def output_file_name (table : String) : String := camel_case_base table ++ ".java"

/-- Output file name used by the `write_class_to_file` of
`src/java_model_generatory.py` (line 169): `f-string {table}.java` — the
raw catalog name, not the normalized one. -/
def generatory_output_file_name (table : String) : String := table ++ ".java"

/-- The chunks written for one column by the loop body of
`write_class_to_file` (lines 213-219), paired with the exception raised
mid-column, if any (`camel_case(column_name, True)` raises `IndexError`
on a name whose normalization is empty; the chunks already written at
that point stay in the file). -/
def write_column (indent : String) (column : Column) : List String × Option GenError :=
  let column_name := get_column_name column
  match get_java_type_for_sql_type (get_column_type column) with
  | none => ([], some .attributeError)
  | some java_type =>
    let p1 := indent ++ "@Column(name = \"" ++ column_name ++ "\")\n"
    let p2 := indent ++ "private " ++ java_type ++ " "
    match camel_case column_name true with
    | none => ([p1, p2], some .indexError)
    | some field_name => ([p1, p2, field_name ++ ";\n", "\n"], none)

/-- The column loop of `write_class_to_file`: chunks written until the
first exception, and that exception. -/
def write_columns_loop (indent : String) : List Column → List String × Option GenError
  | [] => ([], none)
  | c :: rest =>
    match write_column indent c with
    | (ps, some e) => (ps, some e)
    | (ps, none) =>
      let r := write_columns_loop indent rest
      (ps ++ r.1, r.2)

/-- The chunks written before the column loop (lines 199-212): package
line, fixed imports, value-type imports, class annotations, `@Table`
bound to the raw table name, class declaration, the `serialVersionUID`
constant, and the `@Id` / `@GeneratedValue` annotation lines.  No
identity field declaration follows those two annotation lines in the
source. -/
def class_header_pieces (table package indent : String)
    (type_imports : List (Option String)) : List String :=
  [ "package " ++ package ++ ";\n"
  , get_imports_string
  , get_type_imports type_imports
  , "\n"
  , get_class_annotations
  , "@Table(name = \"" ++ table ++ "\")\n"
  , "public class " ++ camel_case_base table ++ " implements Serializable "
  , "\x7b\n"
  , "\n"
  , indent ++ "@Serial\n"
  , indent ++ "private static final long serialVersionUID = 1L;\n"
  , "\n"
  , indent ++ "@Id\n"
  , indent ++ "@GeneratedValue(strategy = GenerationType.UUID)\n" ]

/-- Source `write_class_to_file` (lines 195-220).  `setOrder` is the
iteration order CPython chooses for the import set (a permutation of its
contents); `fsFail` tells whether opening the named file raises an
`OSError`.  The import set is computed before the file is opened, so an
unmapped column type yields no file at all; an `IndexError` inside the
column loop leaves a partial file; otherwise the file is complete,
overwriting any previous one of the same name. -/
def write_class_to_file (table : String) (columns : List Column)
    (package indent : String)
    (setOrder : List (Option String) → List (Option String))
    (fsFail : String → Bool) : FileResult :=
  match classesOf columns with
  | .error e => .noFile e
  | .ok cs =>
    let fname := output_file_name table
    if fsFail fname then .noFile .fileWriteError
    else
      let header := class_header_pieces table package indent (setOrder (dedupFirst cs))
      match write_columns_loop indent columns with
      | (ps, some e) => .partialFile ⟨fname, strJoin (header ++ ps)⟩ e
      | (ps, none) => .written ⟨fname, strJoin (header ++ ps ++ ["\x7d"])⟩

/-- Result of executing `get_tables_query` against the catalog: the
filtered row set when the argument is truthy, every table name
otherwise. -/
def run_tables_query (schema : List Table) (table : Option String) : List String :=
  if pyTruthyOpt table then
    ((schema.filter (fun tb => tb.name = pyStrOrEmpty table)).map (fun tb => tb.name))
  else schema.map (fun tb => tb.name)

/-- Result of executing `get_columns_query table` against the catalog. -/
def run_columns_query (schema : List Table) (table : String) : List Column :=
  ((schema.filter (fun tb => tb.name = table)).map (fun tb => tb.columns)).flatten

/-- One iteration of the driver loop: query the columns of one table and
write its class file. -/
def generate_table (schema : List Table) (package indent : String)
    (setOrder : List (Option String) → List (Option String))
    (fsFail : String → Bool) (t : String) : FileResult :=
  write_class_to_file t (run_columns_query schema t) package indent setOrder fsFail

/-- The `for table in tables` loop of `build_model_class_loop`
(lines 226-230).  The source has no exception handling, so the loop stops
at the first raised exception; the pair returned is the list of files now
on disk (a partial file included) and the propagated exception, if any. -/
def loop_go (schema : List Table) (package indent : String)
    (setOrder : List (Option String) → List (Option String))
    (fsFail : String → Bool) : List String → List FileWrite × Option GenError
  | [] => ([], none)
  | t :: rest =>
    match generate_table schema package indent setOrder fsFail t with
    | .written f =>
      let r := loop_go schema package indent setOrder fsFail rest
      (f :: r.1, r.2)
    | .partialFile f e => ([f], some e)
    | .noFile e => ([], some e)

/-- Source `build_model_class_loop` (lines 223-230): list the tables
(respecting the optional filter), then generate each one in order. -/
def build_model_class_loop (schema : List Table) (package indent : String)
    (table : Option String)
    (setOrder : List (Option String) → List (Option String))
    (fsFail : String → Bool) : List FileWrite × Option GenError :=
  loop_go schema package indent setOrder fsFail (run_tables_query schema table)

/-- The connection-relevant command-line arguments (`argparse` gives each
the default `None`). -/
structure Args where
  connection_string : Option String
  driver : Option String
  server : Option String
  database : Option String
  deriving DecidableEq, Repr

/-- Source `validate_args_usage` (lines 168-171).  When the condition
holds the source evaluates `argparse.ArgumentError(None, ...)` but never
raises (or returns) it, so the function signals nothing in either
branch — the constructed error value is discarded. -/
def validate_args_usage (arguments : Args) : Option GenError :=
  if ¬ pyTruthyOpt arguments.connection_string
      ∧ ¬ (pyTruthyOpt arguments.driver ∧ pyTruthyOpt arguments.server
            ∧ pyTruthyOpt arguments.database) then
    let _discarded := GenError.configurationError
    none
  else none

/-- The `__main__` block after `validate_args_usage` (lines 235-239):
execution reaches a `pyodbc.connect` call unless validation signalled an
error. -/
def main_attempts_connection (arguments : Args) : Bool :=
  match validate_args_usage arguments with
  | some _ => false
  | none => true

/-- Content of a `FileResult`, the empty string when no file exists. -/
def resultContent : FileResult → String
  | .noFile _ => ""
  | .partialFile f _ => f.content
  | .written f => f.content

/-- Whether a `FileResult` is a completely written file. -/
def resultWritten : FileResult → Bool
  | .written _ => true
  | _ => false

/-- Lines of a string (split at newline characters). -/
def splitLines : List Char → List (List Char)
  | [] => [[]]
  | c :: rest =>
    match splitLines rest with
    | l :: ls => if c = '\n' then [] :: l :: ls else (c :: l) :: ls
    | [] => [[c]]

/-- The lines of an emitted class that declare a member: leading spaces
stripped, kept when they start with `private `. -/
def privateLines (s : String) : List String :=
  (((splitLines s.data).map (fun l => l.dropWhile (fun c => c = ' '))).filter
    (fun l => List.isPrefixOf "private ".data l)).map (fun l => String.mk l)

/-- Occurrences (overlapping counted) of a nonempty character pattern. -/
def countOccs (pat : List Char) : List Char → Nat
  | [] => 0
  | c :: rest => (if List.isPrefixOf pat (c :: rest) then 1 else 0) + countOccs pat rest

/-- Occurrences of a nonempty substring. -/
def countOccsStr (pat s : String) : Nat := countOccs pat.data s.data

/-- Modelled from the claim wording for C7: the segments obtained by
splitting a name at maximal runs of `_` and `-` (the separators are
dropped; leading, trailing and empty-input cases yield empty
segments). -/
def splitRuns : List Char → List (List Char)
  | [] => [[]]
  | c :: rest =>
    if isSep c then
      match rest with
      | [] => [[], []]
      | d :: _ => if isSep d then splitRuns rest else [] :: splitRuns rest
    else
      match splitRuns rest with
      | s :: ss => (c :: s) :: ss
      | [] => [[c]]

/-- Modelled from the claim wording for C7: title-case each segment and
concatenate with no separator. -/
def specNormalize (s : String) : String :=
  ⟨((splitRuns s.data).map (fun seg => pythonTitle seg false)).flatten⟩

/-- Removal of every space character, the effect of the trailing
`.replace(" ", "")` of `camel_case`. -/
def stripSpaces (s : String) : String := ⟨s.data.filter (fun c => c ≠ ' ')⟩

/-- Proof-internal single-pass normalizer: drops separators and spaces,
uppercases a letter that starts a word, lowercases the rest.  Both
`camel_case_base` and the split/title/concatenate reading are proved
equal to it. -/
def fuse : List Char → Bool → List Char
  | [], _ => []
  | c :: rest, up =>
    if isSep c then fuse rest true
    else if c = ' ' then fuse rest true
    else if isAsciiAlpha c then
      (if up then pyCharUpper c else pyCharLower c) :: fuse rest false
    else c :: fuse rest true

/-- A three-table catalog used to exercise the driver loop. -/
def sampleSchema3 : List Table :=
  [⟨"t_one", [⟨"a", "INT"⟩]⟩, ⟨"t_two", [⟨"b", "INT"⟩]⟩, ⟨"t_three", [⟨"c", "INT"⟩]⟩]

/-- A filesystem on which only the write of `TTwo.java` fails. -/
def failTTwo (n : String) : Bool := n == "TTwo.java"

/-- Helper for C2: the import-set computation of `write_class_to_file`
raises `AttributeError` as soon as any column type has no `JAVA_TYPES`
entry. -/
theorem classesOf_error_of_unmapped :
    ∀ (columns : List Column) (c : Column), c ∈ columns →
      JAVA_TYPES.lookup (py_upper (get_column_type c)) = none →
      classesOf columns = .error .attributeError := by
  intro columns
  induction columns with
  | nil => intro c hc _; cases hc
  | cons d rest ih =>
    intro c hc hl
    cases hgc : get_java_class_for_sql_type (get_column_type d) with
    | none => simp [classesOf, hgc]
    | some cls =>
      rcases List.mem_cons.mp hc with hcd | hcr
      · subst hcd
        rw [get_java_class_for_sql_type, hl] at hgc
        cases hgc
      · have hrest := ih c hcr hl
        simp [classesOf, hgc, hrest]

/-- Claim C2: for every SQL type string with no entry in `JAVA_TYPES`
after upper-casing, `get_java_type_for_sql_type` fails (it never returns
a default Java type), and `write_class_to_file` on any table containing
a column of that type raises the failure before opening the output file,
so generation for that table aborts with no file rather than silently
skipping the column. -/
theorem C2_unknown_type_fails (sql : String)
    (h : JAVA_TYPES.lookup (py_upper sql) = none) :
    get_java_type_for_sql_type sql = none ∧
    ∀ (table package indent : String) (columns : List Column)
      (ord : List (Option String) → List (Option String)) (fsFail : String → Bool),
      (∃ c ∈ columns, get_column_type c = sql) →
      write_class_to_file table columns package indent ord fsFail
        = .noFile .attributeError := by
  constructor
  · rw [get_java_type_for_sql_type, h]
    rfl
  · intro table package indent columns ord fsFail hmem
    obtain ⟨c, hc, hty⟩ := hmem
    have hcl : classesOf columns = .error .attributeError :=
      classesOf_error_of_unmapped columns c hc (by rw [hty]; exact h)
    simp [write_class_to_file, hcl]

/-- Witness for C2 at the unmapped type `TEXT`. -/
theorem C2_unknown_type_fails_witness :
    get_java_type_for_sql_type "TEXT" = none ∧
    write_class_to_file "posts" [⟨"body", "TEXT"⟩] "com.example" "    " id
      (fun _ => false) = .noFile .attributeError := by
  have h := C2_unknown_type_fails "TEXT" (by decide)
  exact ⟨h.1, h.2 "posts" "com.example" "    " [⟨"body", "TEXT"⟩] id (fun _ => false)
    ⟨⟨"body", "TEXT"⟩, by simp, rfl⟩⟩

/-- Claim C1 (code bug): the emitter writes the `@Id` and
`@GeneratedValue` annotation lines but never a field declaration for
them.  For the one-column table `person(name VARCHAR)` the fully written
class contains exactly two member declarations — the
`serialVersionUID` constant and the single column field — and exactly
one `@Id` annotation occurrence, so no distinct synthetic identity field
declaration exists, contrary to the claim. -/
theorem C1_no_identity_field :
    resultWritten (write_class_to_file "person" [⟨"name", "VARCHAR"⟩] "com.example"
      "    " id (fun _ => false)) = true ∧
    privateLines (resultContent (write_class_to_file "person" [⟨"name", "VARCHAR"⟩]
        "com.example" "    " id (fun _ => false)))
      = ["private static final long serialVersionUID = 1L;", "private String name;"] ∧
    countOccsStr "@Id" (resultContent (write_class_to_file "person"
      [⟨"name", "VARCHAR"⟩] "com.example" "    " id (fun _ => false))) = 1 := by
  refine ⟨by decide, by decide, by decide⟩

/-- Claim C3 (code bug): the emitted bytes depend on the iteration order
of the Python import set.  For the table `prices(amount DECIMAL,
sold_at DATETIME)` the two set orders — which are permutations of the
same two-element set — yield different import blocks and different file
contents, so two runs of the unchanged configuration need not be
byte-identical. -/
theorem C3_import_order_sensitivity :
    get_type_imports [some "java.math.BigDecimal;", some "java.util.Date;"]
      ≠ get_type_imports [some "java.util.Date;", some "java.math.BigDecimal;"] ∧
    List.Perm [some "java.math.BigDecimal;", some "java.util.Date;"]
      [some "java.util.Date;", some "java.math.BigDecimal;"] ∧
    resultWritten (write_class_to_file "prices"
      [⟨"amount", "DECIMAL"⟩, ⟨"sold_at", "DATETIME"⟩] "com.example" "    " id
      (fun _ => false)) = true ∧
    resultContent (write_class_to_file "prices"
        [⟨"amount", "DECIMAL"⟩, ⟨"sold_at", "DATETIME"⟩] "com.example" "    " id
        (fun _ => false))
      ≠ resultContent (write_class_to_file "prices"
        [⟨"amount", "DECIMAL"⟩, ⟨"sold_at", "DATETIME"⟩] "com.example" "    "
        List.reverse (fun _ => false)) := by
  refine ⟨by decide, List.Perm.swap _ _ _, by decide, by decide⟩

/-- Claim C4 (code bug): for the table `accounts(user_id INT,
user-id INT)`, whose two columns normalize to the same field name, the
emitter raises nothing: it writes the file completely, and the emitted
class contains the declaration `private Integer userId;` twice — no
`DuplicateFieldNameError` exists anywhere in the source. -/
theorem C4_duplicate_fields_emitted :
    resultWritten (write_class_to_file "accounts"
      [⟨"user_id", "INT"⟩, ⟨"user-id", "INT"⟩] "com.example" "    " id
      (fun _ => false)) = true ∧
    countOccsStr "private Integer userId;" (resultContent (write_class_to_file
      "accounts" [⟨"user_id", "INT"⟩, ⟨"user-id", "INT"⟩] "com.example" "    " id
      (fun _ => false))) = 2 := by
  refine ⟨by decide, by decide⟩

/-- Counterexample for C5: with three tables and a filesystem on which
only the second file write fails, the driver writes the first file,
stops with the propagated error, and never writes the third file — the
run does not continue past the failure. -/
theorem C5_counterexample :
    ((build_model_class_loop sampleSchema3 "com.example" "    " none id
      failTTwo).1.map (fun f => f.name) = ["TOne.java"]) ∧
    (build_model_class_loop sampleSchema3 "com.example" "    " none id failTTwo).2
      = some .fileWriteError ∧
    "TThree.java" ∉ ((build_model_class_loop sampleSchema3 "com.example" "    "
      none id failTTwo).1.map (fun f => f.name)) := by
  refine ⟨by decide, by decide, by decide⟩

/-- Claim C5 (amended): a failure opening one table's file aborts the
driver loop at that table: the files on disk are exactly those written
for the tables before the failure, the error propagates out of the loop
(so the process terminates with it, a non-zero exit), and the tables
after the failing one are neither queried nor written. -/
theorem C5_abort_on_write_failure (schema : List Table) (package indent : String)
    (ord : List (Option String) → List (Option String)) (fsFail : String → Bool)
    (ts1 : List String) (t : String) (ts2 : List String) (e : GenError)
    (h1 : (loop_go schema package indent ord fsFail ts1).2 = none)
    (h2 : generate_table schema package indent ord fsFail t = .noFile e) :
    loop_go schema package indent ord fsFail (ts1 ++ t :: ts2)
      = ((loop_go schema package indent ord fsFail ts1).1, some e) := by
  induction ts1 with
  | nil => simp [loop_go, h2]
  | cons s rest ih =>
    cases hg : generate_table schema package indent ord fsFail s with
    | written f =>
      simp only [loop_go, hg] at h1
      have ihr := ih h1
      simp only [List.cons_append, List.append_eq] at ihr ⊢
      simp only [loop_go, hg, ihr]
    | partialFile f e2 => simp [loop_go, hg] at h1
    | noFile e2 => simp [loop_go, hg] at h1

/-- Witness for the amended C5 on the three-table catalog. -/
theorem C5_abort_on_write_failure_witness :
    loop_go sampleSchema3 "com.example" "    " id failTTwo
        (["t_one"] ++ "t_two" :: ["t_three"])
      = ((loop_go sampleSchema3 "com.example" "    " id failTTwo ["t_one"]).1,
          some .fileWriteError) :=
  C5_abort_on_write_failure sampleSchema3 "com.example" "    " id failTTwo
    ["t_one"] "t_two" ["t_three"] .fileWriteError (by decide) (by decide)

/-- Claim C6 (code bug): with neither a connection string nor the
driver/server/database triple supplied, `validate_args_usage` signals
nothing — the `argparse.ArgumentError` it constructs is never raised —
and the main block proceeds to the `pyodbc.connect` attempt with the
incomplete parameters instead of aborting. -/
theorem C6_validation_never_signals :
    validate_args_usage ⟨none, none, none, none⟩ = none ∧
    main_attempts_connection ⟨none, none, none, none⟩ = true := by
  refine ⟨by decide, by decide⟩

/-- Claim C8 (code bug): `src/java_model_generator.py` names the output
file with the Pascal-cased table name, but the variant
`src/java_model_generatory.py` names it with the raw catalog table name,
so for `user_accounts` the two variants disagree and the raw name is
used by the latter. -/
theorem C8_raw_file_name_variant :
    generatory_output_file_name "user_accounts" = "user_accounts.java" ∧
    output_file_name "user_accounts" = "UserAccounts.java" ∧
    generatory_output_file_name "user_accounts" ≠ output_file_name "user_accounts" := by
  refine ⟨rfl, by decide, by decide⟩

/-- Helper for C9: the substitution regex turns a wholly-separator tail
into nothing once inside a run. -/
theorem collapseSeps_all_sep (l : List Char) (h : ∀ c ∈ l, isSep c = true) :
    collapseSeps l true = [] := by
  induction l with
  | nil => rfl
  | cons c rest ih =>
    have hc : isSep c = true := h c (by simp)
    simp [collapseSeps, hc, ih (fun d hd => h d (by simp [hd]))]

/-- Helper for C9: `camel_case` collapses a separator-only name to the
empty string before the `string[0]` indexing. -/
theorem camel_case_base_all_sep (s : String) (h : ∀ c ∈ s.data, isSep c = true) :
    camel_case_base s = "" := by
  unfold camel_case_base
  cases hd : s.data with
  | nil => simp [collapseSeps, pythonTitle]
  | cons c rest =>
    have hc : isSep c = true := h c (by rw [hd]; simp)
    have hr : collapseSeps rest true = [] :=
      collapseSeps_all_sep rest (fun d hdm => h d (by rw [hd]; simp [hdm]))
    simp [collapseSeps, hc, hr, pythonTitle]
    decide

/-- Claim C9: for every name consisting only of `_` and `-` characters
(the empty name included), `camel_case` with `lower=True` raises an
uncaught `IndexError` (modelled by `none`) while `camel_case` with
`lower=False` returns the empty string — the normalizer is not total on
such names. -/
theorem C9_separator_only_names (s : String) (h : ∀ c ∈ s.data, isSep c = true) :
    camel_case s true = none ∧ camel_case s false = some "" := by
  have hb : camel_case_base s = "" := camel_case_base_all_sep s h
  constructor
  · simp [camel_case, hb, lowerFirstPy]
  · simp [camel_case, hb]

/-- Witness for C9 at the separator-only name `_-`. -/
theorem C9_separator_only_names_witness :
    camel_case "_-" true = none ∧ camel_case "_-" false = some "" :=
  C9_separator_only_names "_-" (by decide)

/-- Claim C10: the empty-string table filter is falsy in Python, so
`get_tables_query` returns the unfiltered list-all-tables query — the
same text as for an absent filter — the table listing contains every
catalog table, and the whole driver run with an empty `--table` value
equals the run with no filter at all. -/
theorem C10_empty_filter_lists_all :
    get_tables_query (some "") = get_tables_query none ∧
    (∀ schema : List Table,
      run_tables_query schema (some "") = schema.map (fun tb => tb.name)) ∧
    (∀ (schema : List Table) (package indent : String)
       (ord : List (Option String) → List (Option String)) (fsFail : String → Bool),
       build_model_class_loop schema package indent (some "") ord fsFail
         = build_model_class_loop schema package indent none ord fsFail) := by
  have ht : pyTruthyOpt (some "") = false := by decide
  have hn : pyTruthyOpt none = false := rfl
  refine ⟨?_, ?_, ?_⟩
  · rw [get_tables_query, get_tables_query, ht, hn]
    simp
  · intro schema
    rw [run_tables_query, ht]
    simp
  · intro schema package indent ord fsFail
    rw [build_model_class_loop, build_model_class_loop, run_tables_query,
      run_tables_query, ht, hn]
    simp

/-- Helper: reading back a packed valid code point. -/
theorem toNat_ofNat_valid (n : Nat) (h : n.isValidChar) : (Char.ofNat n).toNat = n := by
  rw [Char.ofNat, dif_pos h]
  simp [Char.ofNatAux, Char.toNat, UInt32.toNat]

/-- Helper: an ASCII letter is not the space character. -/
theorem ne_space_of_alpha {c : Char} (h : isAsciiAlpha c = true) : c ≠ ' ' := by
  intro hc
  subst hc
  exact absurd h (by decide)

/-- Helper: uppercasing an ASCII letter never yields a space. -/
theorem pyCharUpper_ne_space {c : Char} (h : isAsciiAlpha c = true) :
    pyCharUpper c ≠ ' ' := by
  have hh : (65 ≤ c.toNat ∧ c.toNat ≤ 90) ∨ (97 ≤ c.toNat ∧ c.toNat ≤ 122) := by
    simpa [isAsciiAlpha, isAsciiUpper, isAsciiLower, Bool.or_eq_true,
      Bool.and_eq_true, decide_eq_true_eq] using h
  unfold pyCharUpper
  by_cases hl : isAsciiLower c = true
  · have hb : 97 ≤ c.toNat ∧ c.toNat ≤ 122 := by
      simpa [isAsciiLower, Bool.and_eq_true, decide_eq_true_eq] using hl
    rw [if_pos hl]
    intro hEq
    have hv : Nat.isValidChar (c.toNat - 32) := Or.inl (by omega)
    have h2 := congrArg Char.toNat hEq
    rw [toNat_ofNat_valid _ hv] at h2
    have hsp : (' ' : Char).toNat = 32 := rfl
    rw [hsp] at h2
    omega
  · rw [if_neg hl]
    have hb : 65 ≤ c.toNat ∧ c.toNat ≤ 90 := by
      rcases hh with h1 | h2
      · exact h1
      · exact absurd (show isAsciiLower c = true by
          simp only [isAsciiLower, Bool.and_eq_true, decide_eq_true_eq]
          exact h2) hl
    intro hEq
    have h2 := congrArg Char.toNat hEq
    have hsp : (' ' : Char).toNat = 32 := rfl
    rw [hsp] at h2
    omega

/-- Helper: lowercasing an ASCII letter never yields a space. -/
theorem pyCharLower_ne_space {c : Char} (h : isAsciiAlpha c = true) :
    pyCharLower c ≠ ' ' := by
  have hh : (65 ≤ c.toNat ∧ c.toNat ≤ 90) ∨ (97 ≤ c.toNat ∧ c.toNat ≤ 122) := by
    simpa [isAsciiAlpha, isAsciiUpper, isAsciiLower, Bool.or_eq_true,
      Bool.and_eq_true, decide_eq_true_eq] using h
  unfold pyCharLower
  by_cases hu : isAsciiUpper c = true
  · have hb : 65 ≤ c.toNat ∧ c.toNat ≤ 90 := by
      simpa [isAsciiUpper, Bool.and_eq_true, decide_eq_true_eq] using hu
    rw [if_pos hu]
    intro hEq
    have hv : Nat.isValidChar (c.toNat + 32) := Or.inl (by omega)
    have h2 := congrArg Char.toNat hEq
    rw [toNat_ofNat_valid _ hv] at h2
    have hsp : (' ' : Char).toNat = 32 := rfl
    rw [hsp] at h2
    omega
  · have hb : 97 ≤ c.toNat ∧ c.toNat ≤ 122 := by
      rcases hh with h1 | h2
      · exact absurd (show isAsciiUpper c = true by
          simp only [isAsciiUpper, Bool.and_eq_true, decide_eq_true_eq]
          exact h1) hu
      · exact h2
    rw [if_neg hu]
    intro hEq
    have h2 := congrArg Char.toNat hEq
    have hsp : (' ' : Char).toNat = 32 := rfl
    rw [hsp] at h2
    omega

/-- Step lemma for `collapseSeps` on a separator inside a run. -/
theorem collapseSeps_sep_true {c : Char} (rest : List Char) (h : isSep c = true) :
    collapseSeps (c :: rest) true = collapseSeps rest true := by
  simp [collapseSeps, h]

/-- Step lemma for `collapseSeps` on a separator starting a run. -/
theorem collapseSeps_sep_false {c : Char} (rest : List Char) (h : isSep c = true) :
    collapseSeps (c :: rest) false = ' ' :: collapseSeps rest true := by
  simp [collapseSeps, h]

/-- Step lemma for `collapseSeps` on an ordinary character. -/
theorem collapseSeps_nonsep {c : Char} (rest : List Char) (b : Bool)
    (h : isSep c = false) :
    collapseSeps (c :: rest) b = c :: collapseSeps rest false := by
  cases b <;> simp [collapseSeps, h]

/-- Step lemma for `pythonTitle` on a letter. -/
theorem pythonTitle_alpha {c : Char} (rest : List Char) (p : Bool)
    (h : isAsciiAlpha c = true) :
    pythonTitle (c :: rest) p
      = (if p then pyCharLower c else pyCharUpper c) :: pythonTitle rest true := by
  cases p <;> simp [pythonTitle, h]

/-- Step lemma for `pythonTitle` on a non-letter. -/
theorem pythonTitle_nonalpha {c : Char} (rest : List Char) (p : Bool)
    (h : isAsciiAlpha c = false) :
    pythonTitle (c :: rest) p = c :: pythonTitle rest false := by
  cases p <;> simp [pythonTitle, h]

/-- Step lemma for `fuse` on a separator. -/
theorem fuse_sep {c : Char} (rest : List Char) (up : Bool) (h : isSep c = true) :
    fuse (c :: rest) up = fuse rest true := by
  simp [fuse, h]

/-- Step lemma for `fuse` on a space. -/
theorem fuse_space (rest : List Char) (up : Bool) :
    fuse (' ' :: rest) up = fuse rest true := by
  simp [fuse, isSep]

/-- Step lemma for `fuse` on a letter. -/
theorem fuse_alpha {c : Char} (rest : List Char) (up : Bool) (hs : isSep c = false)
    (ha : isAsciiAlpha c = true) :
    fuse (c :: rest) up
      = (if up then pyCharUpper c else pyCharLower c) :: fuse rest false := by
  have hcs : c ≠ ' ' := ne_space_of_alpha ha
  cases up <;> simp [fuse, hs, hcs, ha]

/-- Step lemma for `fuse` on a non-letter that is neither separator nor
space. -/
theorem fuse_other {c : Char} (rest : List Char) (up : Bool) (hs : isSep c = false)
    (hsp : c ≠ ' ') (ha : isAsciiAlpha c = false) :
    fuse (c :: rest) up = c :: fuse rest true := by
  cases up <;> simp [fuse, hs, hsp, ha]

/-- The collapse/title/strip pipeline of `camel_case` computes the
single-pass `fuse`.  The hypothesis records that inside a separator run
the previous emitted character was the injected space, so the title
state is reset. -/
theorem title_collapse_eq_fuse :
    ∀ (l : List Char) (b p : Bool), (b = true → p = false) →
      (pythonTitle (collapseSeps l b) p).filter (fun c => c ≠ ' ') = fuse l (!p) := by
  intro l
  induction l with
  | nil => intro b p _; simp [collapseSeps, pythonTitle, fuse]
  | cons c rest ih =>
    intro b p hbp
    by_cases hsep : isSep c = true
    · cases b with
      | true =>
        have hp := hbp rfl
        subst hp
        rw [collapseSeps_sep_true rest hsep, fuse_sep rest _ hsep]
        simpa using ih true false (fun _ => rfl)
      | false =>
        rw [collapseSeps_sep_false rest hsep, fuse_sep rest _ hsep,
          pythonTitle_nonalpha _ p (by decide)]
        rw [List.filter_cons]
        simp only [decide_eq_true_eq, ne_eq, not_true_eq_false, if_false]
        simpa using ih true false (fun _ => rfl)
    · have hsf : isSep c = false := by simpa using hsep
      rw [collapseSeps_nonsep rest b hsf]
      by_cases hal : isAsciiAlpha c = true
      · have ht := ih false true (by simp)
        simp only [Bool.not_true] at ht
        cases p with
        | false =>
          rw [pythonTitle_alpha _ false hal]
          rw [show (!false) = true from rfl, fuse_alpha rest true hsf hal]
          simp only [if_false, if_true, List.filter_cons]
          rw [if_pos (by simpa using pyCharUpper_ne_space hal)]
          rw [ht]
          simp
        | true =>
          rw [pythonTitle_alpha _ true hal]
          rw [show (!true) = false from rfl, fuse_alpha rest false hsf hal]
          simp only [if_false, if_true, List.filter_cons]
          rw [if_pos (by simpa using pyCharLower_ne_space hal)]
          rw [ht]
          simp
      · have hax : isAsciiAlpha c = false := by simpa using hal
        have ht := ih false false (by simp)
        simp only [Bool.not_false] at ht
        by_cases hsp : c = ' '
        · subst hsp
          rw [pythonTitle_nonalpha _ p hax, fuse_space]
          rw [List.filter_cons]
          simp only [decide_eq_true_eq, ne_eq, not_true_eq_false, if_false]
          exact ht
        · rw [pythonTitle_nonalpha _ p hax, fuse_other rest _ hsf hsp hax]
          rw [List.filter_cons]
          rw [if_pos (by simpa using hsp)]
          rw [ht]

/-- The first `camel_case` line as the single-pass normalizer. -/
theorem camel_case_base_eq_fuse (s : String) :
    camel_case_base s = ⟨fuse s.data true⟩ := by
  unfold camel_case_base
  have h := title_collapse_eq_fuse s.data false false (by simp)
  simp only [Bool.not_false] at h
  rw [h]

/-- Helper: `splitRuns` always yields at least one segment. -/
theorem splitRuns_ne_nil : ∀ l : List Char, splitRuns l ≠ [] := by
  intro l
  induction l with
  | nil => simp [splitRuns]
  | cons c rest ih =>
    by_cases h : isSep c = true
    · cases rest with
      | nil => simp [splitRuns, h]
      | cons d r2 =>
        by_cases hd : isSep d = true
        · simpa [splitRuns, h, hd] using ih
        · simp [splitRuns, h, hd]
    · have hsf : isSep c = false := by simpa using h
      cases hx : splitRuns rest with
      | nil => exact absurd hx ih
      | cons a b => simp [splitRuns, hsf, hx]

/-- Helper: after a separator the next segment starts empty. -/
theorem splitRuns_sep_head : ∀ (rest : List Char) (c : Char), isSep c = true →
    ∃ ss, splitRuns (c :: rest) = [] :: ss := by
  intro rest
  induction rest with
  | nil => intro c h; exact ⟨[[]], by simp [splitRuns, h]⟩
  | cons d r2 ih =>
    intro c h
    by_cases hd : isSep d = true
    · obtain ⟨ss, hss⟩ := ih d hd
      exact ⟨ss, by simpa [splitRuns, h, hd] using hss⟩
    · exact ⟨splitRuns (d :: r2), by simp [splitRuns, h, hd]⟩

/-- The split/title/concatenate reading of the claim computes the same
single-pass normalizer, once spaces are stripped.  Stated segment-wise:
the current segment may carry an arbitrary title state `p` because an
empty first segment ignores it. -/
theorem spec_segments_eq_fuse :
    ∀ (l : List Char) (p : Bool) (s : List Char) (ss : List (List Char)),
      splitRuns l = s :: ss →
      ((pythonTitle s p ++ (ss.map (fun seg => pythonTitle seg false)).flatten).filter
        (fun c => c ≠ ' ')) = fuse l (!p) := by
  intro l
  induction l with
  | nil =>
    intro p s ss h
    simp only [splitRuns, List.cons.injEq] at h
    obtain ⟨hs, hss⟩ := h
    subst hs
    subst hss
    simp [pythonTitle, fuse]
  | cons c rest ih =>
    intro p s ss h
    by_cases hsep : isSep c = true
    · cases rest with
      | nil =>
        simp only [splitRuns, hsep, if_true, List.cons.injEq] at h
        obtain ⟨hs, hss⟩ := h
        subst hs
        subst hss
        rw [fuse_sep _ _ hsep]
        simp [pythonTitle, fuse]
      | cons d r2 =>
        by_cases hd : isSep d = true
        · have h' : splitRuns (d :: r2) = s :: ss := by
            simpa [splitRuns, hsep, hd] using h
          obtain ⟨ss2, hps⟩ := splitRuns_sep_head r2 d hd
          rw [hps] at h'
          simp only [List.cons.injEq] at h'
          obtain ⟨hs, hss⟩ := h'
          subst hs
          subst hss
          have hx := ih false [] ss2 hps
          simp only [Bool.not_false] at hx
          rw [fuse_sep _ _ hsep]
          simpa [pythonTitle] using hx
        · have h' : ([] : List Char) :: splitRuns (d :: r2) = s :: ss := by
            simpa [splitRuns, hsep, hd] using h
          simp only [List.cons.injEq] at h'
          obtain ⟨hs, hss⟩ := h'
          subst hs
          subst hss
          obtain ⟨s2, ss2, hsr⟩ : ∃ a b, splitRuns (d :: r2) = a :: b := by
            cases hy : splitRuns (d :: r2) with
            | nil => exact absurd hy (splitRuns_ne_nil _)
            | cons a b => exact ⟨a, b, rfl⟩
          have hx := ih false s2 ss2 hsr
          simp only [Bool.not_false] at hx
          rw [fuse_sep _ _ hsep, hsr]
          simpa [pythonTitle] using hx
    · have hsf : isSep c = false := by simpa using hsep
      obtain ⟨s', ss', hsr⟩ : ∃ a b, splitRuns rest = a :: b := by
        cases hy : splitRuns rest with
        | nil => exact absurd hy (splitRuns_ne_nil _)
        | cons a b => exact ⟨a, b, rfl⟩
      have h' : (c :: s') :: ss' = s :: ss := by
        simpa [splitRuns, hsf, hsr] using h
      simp only [List.cons.injEq] at h'
      obtain ⟨hs, hss⟩ := h'
      subst hs
      subst hss
      by_cases hal : isAsciiAlpha c = true
      · have ht := ih true s' ss' hsr
        simp only [Bool.not_true] at ht
        cases p with
        | false =>
          rw [pythonTitle_alpha _ false hal]
          rw [show (!false) = true from rfl, fuse_alpha rest true hsf hal]
          simp only [if_false, if_true, List.cons_append, List.filter_cons]
          rw [if_pos (by simpa using pyCharUpper_ne_space hal)]
          rw [ht]
          simp
        | true =>
          rw [pythonTitle_alpha _ true hal]
          rw [show (!true) = false from rfl, fuse_alpha rest false hsf hal]
          simp only [if_false, if_true, List.cons_append, List.filter_cons]
          rw [if_pos (by simpa using pyCharLower_ne_space hal)]
          rw [ht]
          simp
      · have hax : isAsciiAlpha c = false := by simpa using hal
        have ht := ih false s' ss' hsr
        simp only [Bool.not_false] at ht
        by_cases hsp : c = ' '
        · subst hsp
          rw [pythonTitle_nonalpha _ p hax, fuse_space]
          rw [List.cons_append, List.filter_cons]
          simp only [decide_eq_true_eq, ne_eq, not_true_eq_false, if_false]
          exact ht
        · rw [pythonTitle_nonalpha _ p hax, fuse_other rest _ hsf hsp hax]
          rw [List.cons_append, List.filter_cons]
          rw [if_pos (by simpa using hsp)]
          rw [ht]

/-- Helper: the character list of a packed string. -/
theorem data_mk (l : List Char) : (String.mk l).data = l := rfl

/-- The `camel_case` pipeline equals the claim's split/title/concatenate
reading followed by removal of all spaces. -/
theorem camel_case_base_eq_spec (s : String) :
    camel_case_base s = stripSpaces (specNormalize s) := by
  rw [camel_case_base_eq_fuse]
  obtain ⟨s1, ss1, hsr⟩ : ∃ a b, splitRuns s.data = a :: b := by
    cases hy : splitRuns s.data with
    | nil => exact absurd hy (splitRuns_ne_nil _)
    | cons a b => exact ⟨a, b, rfl⟩
  have hD := spec_segments_eq_fuse s.data false s1 ss1 hsr
  simp only [Bool.not_false] at hD
  unfold stripSpaces specNormalize
  rw [data_mk, hsr]
  simp only [List.map_cons, List.flatten_cons]
  exact congrArg String.mk hD.symm

/-- Counterexample for C7: on a name containing a space the code and the
claim's split/title/concatenate description disagree — `camel_case`
deletes the space (`.replace(" ", "")` runs after title-casing), the
description preserves it. -/
theorem C7_counterexample_space :
    camel_case "a b" false = some "AB" ∧ specNormalize "a b" = "A B" ∧
    camel_case "a b" false ≠ some (specNormalize "a b") := by
  refine ⟨by decide, by decide, by decide⟩

/-- Claim C7 (amended): for every input name, `camel_case` splits on runs
of `_` and `-`, title-cases each segment (Python semantics: every
maximal letter run is capitalized at its first letter, the rest
lowered), concatenates with no separator, and additionally removes every
space character; with `lower=True` it then lower-cases only the first
character (failing on an empty result).  The three concrete examples of
the claim hold as stated. -/
theorem C7_normalizer_characterization (s : String) :
    camel_case s false = some (stripSpaces (specNormalize s)) ∧
    camel_case s true = lowerFirstPy (stripSpaces (specNormalize s)) ∧
    camel_case "user_id" true = some "userId" ∧
    camel_case "user_id" false = some "UserId" ∧
    camel_case "order-line-item" false = some "OrderLineItem" := by
  have hb := camel_case_base_eq_spec s
  refine ⟨?_, ?_, by decide, by decide, by decide⟩
  · simp [camel_case, hb]
  · simp [camel_case, hb]

end JavaModelGen
